import Mathlib

/-!
Shallow embedding of the cursor-voice extension host controller
(conversation store, AI request enrichment and dispatch, code-context
gathering), translated from the TypeScript source, together with
theorems settling the specification claims.

Modelling conventions:
* JavaScript timestamps (`new Date().toISOString()`) are passed in as an
  explicit `now : String` parameter; the two `toISOString()` calls inside
  one synchronous handler are modelled as the same current time.
* `generateId()` (`Date.now().toString(36) + Math.random()...`) is
  nondeterministic environment input, passed in as `genId : String`;
  freshness of a generated id is an explicit hypothesis where a claim
  needs it.
* JavaScript truthiness on optional string payload fields
  (`if (data.conversationId)`) is modelled by `strTruthy`: defined and
  non-empty.
* The webview `postMessage` replies are modelled as returned structures
  carrying the message `type` tag and the payload fields the source
  writes.
-/

namespace CursorVoice

/-- Embeds the source interface ConversationMessage. -/
structure ConversationMessage where
  id : String
  timestamp : String
  type : String
  content : String
  provider : Option String
  includedContext : Option Bool
  deriving DecidableEq

/-- Embeds the source interface Conversation. -/
structure Conversation where
  id : String
  title : String
  createdAt : String
  updatedAt : String
  messages : List ConversationMessage
  deriving DecidableEq

/-- JavaScript truthiness of an optional string field:
`undefined` and `""` are falsy. -/
def strTruthy : Option String → Bool
  | none => false
  | some s => s != ""

/-- Payload of a `conversation-save` message. -/
structure SaveData where
  conversationId : Option String
  title : String
  messages : List ConversationMessage
  deriving DecidableEq

/-- Reply posted by `handleConversationSave`
(`type: 'conversation-saved'`). -/
structure SaveReply where
  type : String
  success : Bool
  conversationId : Option String
  message : String
  deriving DecidableEq

/-- The ids of the stored conversations, in storage order. -/
def idsOf (conversations : List Conversation) : List String :=
  conversations.map (·.id)

/-- The new conversation built in the create branch of
`handleConversationSave`: fresh id, `createdAt` and `updatedAt` both the
current time. -/
def mkNewConversation (data : SaveData) (genId now : String) : Conversation :=
  { id := genId
    title := data.title
    createdAt := now
    updatedAt := now
    messages := data.messages }

/-- The update branch of `handleConversationSave`:
`conversations.findIndex(c => c.id === data.conversationId)` followed by
replacement of that single entry (`{...conversations[index], title,
updatedAt, messages}`); when no entry matches the list is left as is. -/
def updateById (cid title : String) (messages : List ConversationMessage)
    (now : String) : List Conversation → List Conversation
  | [] => []
  | c :: rest =>
      if c.id == cid then
        { c with title := title, updatedAt := now, messages := messages } :: rest
      else
        c :: updateById cid title messages now rest

/-- Embeds handleConversationSave: update in place when the payload carries a
truthy id, otherwise `unshift` a new conversation; reply
`conversation-saved` with `success: true` and
`conversationId: data.conversationId || conversations[0].id`. -/
def handleConversationSave (data : SaveData) (genId now : String)
    (conversations : List Conversation) : List Conversation × SaveReply :=
  let conversations' :=
    if strTruthy data.conversationId then
      updateById (data.conversationId.getD "") data.title data.messages now
        conversations
    else
      mkNewConversation data genId now :: conversations
  (conversations',
    { type := "conversation-saved"
      success := true
      conversationId :=
        if strTruthy data.conversationId then data.conversationId
        else conversations'.head?.map (·.id)
      message := "Conversation saved successfully!" })

/-- Reply posted by `handleConversationDelete`
(`type: 'conversation-deleted'`). -/
structure DeleteReply where
  type : String
  success : Bool
  message : String
  deriving DecidableEq

/-- Embeds handleConversationDelete: filter out the matching id; persist and
report `success: true` only when the filtered list is shorter, otherwise
leave the store untouched and report `success: false`. -/
def handleConversationDelete (conversationId : String)
    (conversations : List Conversation) : List Conversation × DeleteReply :=
  let filteredConversations := conversations.filter (fun c => c.id != conversationId)
  if filteredConversations.length < conversations.length then
    (filteredConversations,
      { type := "conversation-deleted"
        success := true
        message := "Conversation deleted successfully!" })
  else
    (conversations,
      { type := "conversation-deleted"
        success := false
        message := "Conversation not found" })

/-- One summary entry of the `conversation-list` reply: id, title,
timestamps and message count only. -/
structure ConversationSummary where
  id : String
  title : String
  createdAt : String
  updatedAt : String
  messageCount : Nat
  deriving DecidableEq

/-- Embeds handleConversationList: map each stored conversation to its
summary. -/
def handleConversationList (conversations : List Conversation) :
    List ConversationSummary :=
  conversations.map fun c =>
    { id := c.id
      title := c.title
      createdAt := c.createdAt
      updatedAt := c.updatedAt
      messageCount := c.messages.length }

/-- Embeds handleConversationLoad: linear scan by id
(`conversations.find(c => c.id === data.conversationId)`); `none` models
the `error: 'Conversation not found'` reply. -/
def handleConversationLoad (conversationId : String)
    (conversations : List Conversation) : Option Conversation :=
  conversations.find? (fun c => c.id == conversationId)

/-- The five scalar settings values read from
`vscode.workspace.getConfiguration('cursorVoice')`. -/
structure Settings where
  aiProvider : String
  openaiApiKey : String
  claudeApiKey : String
  openaiModel : String
  claudeModel : String
  deriving DecidableEq

/-- Embeds getApiKey: switch on the provider name, defaulting to the empty
string for unknown providers. -/
def getApiKey (settings : Settings) (provider : String) : String :=
  if provider == "openai" then settings.openaiApiKey
  else if provider == "claude" then settings.claudeApiKey
  else ""

/-- Embeds the source interface CodeContext; every field is
optional. -/
structure CursorPosition where
  line : Nat
  character : Nat
  deriving DecidableEq

/-- The code-context snapshot gathered from the active editor. -/
structure CodeContext where
  fileName : Option String
  language : Option String
  fileContent : Option String
  selectedText : Option String
  cursorPosition : Option CursorPosition
  workspaceName : Option String
  relativePath : Option String
  deriving DecidableEq

/-- Rendering of `${context.language || ''}` in a template literal. -/
def languageTag (c : CodeContext) : String := c.language.getD ""

/-- Rendering of a bare `${context.language}` in a template literal
(an absent field prints as `undefined` in JavaScript). -/
def languageShown (c : CodeContext) : String := c.language.getD "undefined"

/-- Embeds formatContextForAI: build the markdown context block, including
each section only when its field is truthy. -/
def formatContextForAI (c : CodeContext) : String :=
  "## Current Context\n\n"
  ++ (if strTruthy c.workspaceName then
        "**Workspace:** " ++ c.workspaceName.getD "" ++ "\n"
      else "")
  ++ (if strTruthy c.fileName then
        "**File:** "
          ++ (if strTruthy c.relativePath then c.relativePath.getD ""
              else c.fileName.getD "") ++ "\n"
          ++ "**Language:** " ++ languageShown c ++ "\n"
          ++ (match c.cursorPosition with
              | some p =>
                  "**Cursor Position:** Line " ++ toString p.line
                    ++ ", Column " ++ toString p.character ++ "\n"
              | none => "")
      else "")
  ++ (if strTruthy c.selectedText then
        "\n**Selected Text:**\n```" ++ languageTag c ++ "\n"
          ++ c.selectedText.getD "" ++ "\n```\n"
      else "")
  ++ (if strTruthy c.fileContent then
        "\n**Current File Content:**\n```" ++ languageTag c ++ "\n"
          ++ c.fileContent.getD "" ++ "\n```\n"
      else "")
  ++ "\n---\n\n"

/-- Payload of an `ai-request` message. -/
structure AIRequestData where
  prompt : String
  includeContext : Bool
  deriving DecidableEq

/-- The `ai-response` reply payload posted by `handleAIRequest`,
together with its message `type` tag. -/
structure AIReply where
  type : String
  response : String
  status : String
  provider : Option String
  includedContext : Option Bool
  deriving DecidableEq

/-- Result of one run of `handleAIRequest`: the posted reply, and the
prompt handed to the provider's completion endpoint (`none` when no
provider call was made, i.e. no network request was attempted). -/
structure AIOutcome where
  reply : AIReply
  sentPrompt : Option String
  deriving DecidableEq

/-- The prompt built inside `handleAIRequest`: the raw prompt, or, when
`data.includeContext` is set, the formatted context block followed by
the tagged literal question. -/
def builtPrompt (data : AIRequestData) (ctx : CodeContext) : String :=
  if data.includeContext then
    formatContextForAI ctx ++ "**User Question:** " ++ data.prompt
  else
    data.prompt

/-- Embeds handleAIRequest: look up the key for the configured provider and
bail out with an error reply before any call when it is empty; otherwise
build the (optionally enriched) prompt and dispatch to the provider,
whose outcome is the external function `providerResult` (`.ok` a
completion, `.error` a thrown exception's message); any throw is caught
and turned into an `ai-response` with status `error` and the message
embedded after the `Error: ` prefix. -/
def handleAIRequest (settings : Settings) (data : AIRequestData)
    (ctx : CodeContext) (providerResult : String → Except String String) :
    AIOutcome :=
  let aiProvider := settings.aiProvider
  let apiKey := getApiKey settings aiProvider
  if apiKey == "" then
    { reply :=
        { type := "ai-response"
          response := "Error: No API key configured for " ++ aiProvider
            ++ ". Please set your API key in the Settings."
          status := "error"
          provider := none
          includedContext := none }
      sentPrompt := none }
  else
    let prompt := builtPrompt data ctx
    if aiProvider == "openai" || aiProvider == "claude" then
      match providerResult prompt with
      | .ok response =>
          { reply :=
              { type := "ai-response"
                response := response
                status := "success"
                provider := some aiProvider
                includedContext := some data.includeContext }
            sentPrompt := some prompt }
      | .error msg =>
          { reply :=
              { type := "ai-response"
                response := "Error: " ++ msg
                status := "error"
                provider := some aiProvider
                includedContext := none }
            sentPrompt := some prompt }
    else
      { reply :=
          { type := "ai-response"
            response := "Error: Unsupported AI provider: " ++ aiProvider
            status := "error"
            provider := some aiProvider
            includedContext := none }
        sentPrompt := none }

/-- The active document, as its list of lines; `document.getText()` is
the lines joined by newlines. -/
structure Document where
  lines : List String
  deriving DecidableEq

/-- Embeds document.getText(). -/
def docText (d : Document) : String := String.intercalate "\n" d.lines

/-- The line window carved out of a large document in
`gatherCodeContext`: `startLine = max(0, cursor - 50)` (natural
subtraction), `endLine = min(lineCount - 1, cursor + 50)`, lines
`startLine..endLine` inclusive. -/
def excerptWindow (d : Document) (cursorLine : Nat) : List String :=
  let startLine := cursorLine - 50
  let endLine := min (d.lines.length - 1) (cursorLine + 50)
  (d.lines.drop startLine).take (endLine + 1 - startLine)

/-- The `context.fileContent` computed by `gatherCodeContext`: the full
text when it has at most 10000 characters, otherwise a header naming
the shown 1-based line range followed by the window around the
cursor. -/
def contextFileContent (d : Document) (cursorLine : Nat) : String :=
  let fullContent := docText d
  if fullContent.length ≤ 10000 then
    fullContent
  else
    let startLine := cursorLine - 50
    let endLine := min (d.lines.length - 1) (cursorLine + 50)
    "... (showing lines " ++ toString (startLine + 1) ++ "-"
      ++ toString (endLine + 1) ++ " around cursor) ...\n"
      ++ String.intercalate "\n" (excerptWindow d cursorLine)

/-- One request handled by the conversation store (`load` and `list`
never change the stored list). -/
inductive StoreOp where
  | save (data : SaveData) (genId : String) (now : String)
  | load (conversationId : String)
  | listAll
  | delete (conversationId : String)
  deriving DecidableEq

/-- The stored list after one store operation. -/
def applyOp (conversations : List Conversation) : StoreOp → List Conversation
  | .save data genId now => (handleConversationSave data genId now conversations).1
  | .load _ => conversations
  | .listAll => conversations
  | .delete cid => (handleConversationDelete cid conversations).1

/-- The stored list after a sequence of store operations. -/
def runOps (conversations : List Conversation) : List StoreOp → List Conversation
  | [] => conversations
  | op :: ops => runOps (applyOp conversations op) ops

/-- Freshness of one operation's environment input against the current
store: when a save creates a new conversation, the id `generateId()`
returned does not collide with an id already stored at that moment. -/
def opFresh (conversations : List Conversation) : StoreOp → Bool
  | .save data genId _ =>
      strTruthy data.conversationId || !((idsOf conversations).contains genId)
  | _ => true

/-- Freshness of the environment-supplied generated ids along a whole
run of store operations. -/
def freshRun (conversations : List Conversation) : List StoreOp → Bool
  | [] => true
  | op :: ops =>
      opFresh conversations op && freshRun (applyOp conversations op) ops

/-! ### Helper lemmas about the store operations -/

theorem idsOf_updateById (cid t : String) (m : List ConversationMessage)
    (now : String) (l : List Conversation) :
    idsOf (updateById cid t m now l) = idsOf l := by
  induction l with
  | nil => rfl
  | cons c rest ih =>
      by_cases h : c.id == cid
      · simp [updateById, h, idsOf]
      · simp only [updateById, h, Bool.false_eq_true, if_false, idsOf,
          List.map_cons]
        exact congrArg _ ih

theorem updateById_of_not_mem {cid : String} {l : List Conversation}
    (t : String) (m : List ConversationMessage) (now : String)
    (h : cid ∉ idsOf l) : updateById cid t m now l = l := by
  induction l with
  | nil => rfl
  | cons c rest ih =>
      simp only [idsOf, List.map_cons, List.mem_cons, not_or] at h
      have hc : (c.id == cid) = false := by
        simp [beq_iff_eq]
        exact fun e => h.1 e.symm
      simp only [updateById, hc, Bool.false_eq_true, if_false]
      exact congrArg _ (ih h.2)

theorem map_update_of_not_mem {cid : String} {l : List Conversation}
    (upd : Conversation → Conversation)
    (h : cid ∉ idsOf l) :
    l.map (fun c => if c.id = cid then upd c else c) = l := by
  induction l with
  | nil => rfl
  | cons c rest ih =>
      simp only [idsOf, List.map_cons, List.mem_cons, not_or] at h
      have hc : ¬ c.id = cid := fun e => h.1 e.symm
      simp only [List.map_cons, hc, if_false]
      exact congrArg _ (ih h.2)

theorem updateById_eq_map {cid : String} {l : List Conversation}
    (t : String) (m : List ConversationMessage) (now : String)
    (hnd : (idsOf l).Nodup) :
    updateById cid t m now l
      = l.map (fun c =>
          if c.id = cid then
            { c with title := t, updatedAt := now, messages := m }
          else c) := by
  induction l with
  | nil => rfl
  | cons c rest ih =>
      simp only [idsOf, List.map_cons, List.nodup_cons] at hnd
      by_cases h : c.id = cid
      · have hrest : cid ∉ idsOf rest := h ▸ hnd.1
        simp only [updateById, h, beq_self_eq_true, if_true, List.map_cons,
          if_pos rfl]
        exact congrArg _ (map_update_of_not_mem _ hrest).symm
      · have hc : (c.id == cid) = false := by simp [beq_iff_eq, h]
        simp only [updateById, hc, Bool.false_eq_true, if_false,
          List.map_cons, h, if_false]
        exact congrArg _ (ih hnd.2)

theorem filter_ne_of_not_mem {cid : String} {l : List Conversation}
    (h : cid ∉ idsOf l) : l.filter (fun c => c.id != cid) = l := by
  induction l with
  | nil => rfl
  | cons c rest ih =>
      simp only [idsOf, List.map_cons, List.mem_cons, not_or] at h
      have hc : (c.id != cid) = true := by
        simp [bne_iff_ne]
        exact fun e => h.1 e.symm
      simp only [List.filter_cons, hc, if_true]
      exact congrArg _ (ih h.2)

theorem length_filter_lt_of_mem {cid : String} {l : List Conversation}
    (h : cid ∈ idsOf l) :
    (l.filter (fun c => c.id != cid)).length < l.length := by
  induction l with
  | nil => simp [idsOf] at h
  | cons c rest ih =>
      simp only [idsOf, List.map_cons, List.mem_cons] at h
      by_cases hc : c.id = cid
      · have : (c.id != cid) = false := by simp [bne_iff_ne, hc]
        simp only [List.filter_cons, this, Bool.false_eq_true, if_false,
          List.length_cons]
        exact Nat.lt_succ_of_le (List.length_filter_le _ _)
      · have hne : (c.id != cid) = true := by simp [bne_iff_ne, hc]
        have hmem : cid ∈ idsOf rest := by
          rcases h with h | h
          · exact absurd h.symm hc
          · exact h
        simp only [List.filter_cons, hne, if_true, List.length_cons]
        exact Nat.succ_lt_succ (ih hmem)

theorem length_filter_succ_of_nodup {cid : String} {l : List Conversation}
    (hnd : (idsOf l).Nodup) (h : cid ∈ idsOf l) :
    (l.filter (fun c => c.id != cid)).length + 1 = l.length := by
  induction l with
  | nil => simp [idsOf] at h
  | cons c rest ih =>
      simp only [idsOf, List.map_cons, List.nodup_cons] at hnd
      simp only [idsOf, List.map_cons, List.mem_cons] at h
      by_cases hc : c.id = cid
      · have hrest : cid ∉ idsOf rest := hc ▸ hnd.1
        have : (c.id != cid) = false := by simp [bne_iff_ne, hc]
        simp only [List.filter_cons, this, Bool.false_eq_true, if_false,
          List.length_cons, filter_ne_of_not_mem hrest]
      · have hne : (c.id != cid) = true := by simp [bne_iff_ne, hc]
        have hmem : cid ∈ idsOf rest := by
          rcases h with h | h
          · exact absurd h.symm hc
          · exact h
        simp only [List.filter_cons, hne, if_true, List.length_cons]
        exact congrArg Nat.succ (ih hnd.2 hmem)

theorem nodup_idsOf_filter (p : Conversation → Bool) {l : List Conversation}
    (hnd : (idsOf l).Nodup) : (idsOf (l.filter p)).Nodup :=
  List.Nodup.sublist (List.Sublist.map _ (List.filter_sublist l)) hnd

/-! ### Branch equations for the handlers -/

theorem handleConversationSave_create (data : SaveData) (genId now : String)
    (s : List Conversation) (h : strTruthy data.conversationId = false) :
    handleConversationSave data genId now s
      = (mkNewConversation data genId now :: s,
          { type := "conversation-saved"
            success := true
            conversationId := some genId
            message := "Conversation saved successfully!" }) := by
  simp [handleConversationSave, h, mkNewConversation]

theorem handleConversationSave_update (data : SaveData) (genId now : String)
    (s : List Conversation) (cid : String)
    (hcid : data.conversationId = some cid) (hne : cid ≠ "") :
    handleConversationSave data genId now s
      = (updateById cid data.title data.messages now s,
          { type := "conversation-saved"
            success := true
            conversationId := some cid
            message := "Conversation saved successfully!" }) := by
  simp [handleConversationSave, hcid, strTruthy, bne_iff_ne, hne]

theorem handleConversationDelete_not_mem (cid : String)
    (s : List Conversation) (h : cid ∉ idsOf s) :
    handleConversationDelete cid s
      = (s, { type := "conversation-deleted"
              success := false
              message := "Conversation not found" }) := by
  have hfil : s.filter (fun c => c.id != cid) = s := filter_ne_of_not_mem h
  simp [handleConversationDelete, hfil]

theorem handleConversationDelete_mem (cid : String)
    (s : List Conversation) (h : cid ∈ idsOf s) :
    handleConversationDelete cid s
      = (s.filter (fun c => c.id != cid),
          { type := "conversation-deleted"
            success := true
            message := "Conversation deleted successfully!" }) := by
  have hlt := length_filter_lt_of_mem h
  simp [handleConversationDelete, hlt]

/-! ### Claim theorems -/

/-- C1: a save without an id prepends exactly one new entry carrying the
freshly generated identifier (assumed distinct from every stored id, the
generated id being environment input) with `createdAt = updatedAt`; a
save with an id present in the (duplicate-free) stored list replaces
exactly that entry's title, message list and `updatedAt`, keeps its `id`
and `createdAt`, leaves every other entry unchanged, and preserves the
list's length. -/
theorem save_create_and_update_spec (data : SaveData) (genId now : String)
    (s : List Conversation) :
    (strTruthy data.conversationId = false → genId ∉ idsOf s →
      (handleConversationSave data genId now s).1
          = mkNewConversation data genId now :: s
        ∧ (handleConversationSave data genId now s).1.length = s.length + 1
        ∧ (mkNewConversation data genId now).id = genId
        ∧ (mkNewConversation data genId now).id ∉ idsOf s
        ∧ (mkNewConversation data genId now).createdAt
            = (mkNewConversation data genId now).updatedAt)
    ∧ (∀ cid : String, data.conversationId = some cid → cid ≠ "" →
        (idsOf s).Nodup → cid ∈ idsOf s →
        (handleConversationSave data genId now s).1
            = s.map (fun c =>
                if c.id = cid then
                  { c with title := data.title,
                           updatedAt := now,
                           messages := data.messages }
                else c)
          ∧ (handleConversationSave data genId now s).1.length = s.length) := by
  constructor
  · intro hfalse hfresh
    rw [handleConversationSave_create data genId now s hfalse]
    exact ⟨rfl, by simp, rfl, hfresh, rfl⟩
  · intro cid hcid hne hnd _
    rw [handleConversationSave_update data genId now s cid hcid hne]
    exact ⟨updateById_eq_map _ _ _ hnd,
      by rw [updateById_eq_map _ _ _ hnd]; simp⟩

/-- C1 witness: both branches of `save_create_and_update_spec`
instantiated at concrete inputs. -/
theorem save_create_and_update_spec_witness :
    (handleConversationSave ⟨none, "t", []⟩ "g" "n" []).1
        = [mkNewConversation ⟨none, "t", []⟩ "g" "n"]
    ∧ (handleConversationSave ⟨some "a", "t2", []⟩ "g" "n"
          [{ id := "a", title := "x", createdAt := "c1", updatedAt := "u1",
             messages := [] }]).1.length = 1 := by
  refine ⟨?_, ?_⟩
  · exact ((save_create_and_update_spec ⟨none, "t", []⟩ "g" "n" []).1
      rfl (by simp [idsOf])).1
  · exact ((save_create_and_update_spec ⟨some "a", "t2", []⟩ "g" "n"
      [{ id := "a", title := "x", createdAt := "c1", updatedAt := "u1",
         messages := [] }]).2 "a" rfl (by decide)
      (by simp [idsOf]) (by simp [idsOf])).2

/-- C2: deleting an id absent from the stored list leaves the list
unchanged and replies `success: false`; deleting an id present in a
duplicate-free stored list removes exactly the matching entry (one
fewer entry, every other entry kept) and replies `success: true`. -/
theorem delete_spec (cid : String) (s : List Conversation) :
    (cid ∉ idsOf s →
      (handleConversationDelete cid s).1 = s
        ∧ (handleConversationDelete cid s).2.success = false)
    ∧ ((idsOf s).Nodup → cid ∈ idsOf s →
      (handleConversationDelete cid s).1 = s.filter (fun c => c.id != cid)
        ∧ (handleConversationDelete cid s).1.length + 1 = s.length
        ∧ (∀ c ∈ s, c.id ≠ cid → c ∈ (handleConversationDelete cid s).1)
        ∧ (∀ c ∈ (handleConversationDelete cid s).1, c ∈ s ∧ c.id ≠ cid)
        ∧ (handleConversationDelete cid s).2.success = true) := by
  constructor
  · intro hmem
    rw [handleConversationDelete_not_mem cid s hmem]
    exact ⟨rfl, rfl⟩
  · intro hnd hmem
    rw [handleConversationDelete_mem cid s hmem]
    refine ⟨rfl, length_filter_succ_of_nodup hnd hmem, ?_, ?_, rfl⟩
    · intro c hc hne
      exact List.mem_filter.2 ⟨hc, by simp [bne_iff_ne, hne]⟩
    · intro c hc
      have h := List.mem_filter.1 hc
      exact ⟨h.1, by simpa [bne_iff_ne] using h.2⟩

/-- C2 witness: both branches of `delete_spec` at concrete inputs. -/
theorem delete_spec_witness :
    (handleConversationDelete "zzz"
        [{ id := "a", title := "x", createdAt := "c", updatedAt := "u",
           messages := [] }]).2.success = false
    ∧ (handleConversationDelete "a"
        [{ id := "a", title := "x", createdAt := "c", updatedAt := "u",
           messages := [] }]).1.length + 1 = 1 := by
  refine ⟨?_, ?_⟩
  · exact ((delete_spec "zzz"
      [{ id := "a", title := "x", createdAt := "c", updatedAt := "u",
         messages := [] }]).1 (by simp [idsOf])).2
  · exact ((delete_spec "a"
      [{ id := "a", title := "x", createdAt := "c", updatedAt := "u",
         messages := [] }]).2 (by simp [idsOf]) (by simp [idsOf])).2.1

/-- C6: the conversation-list reply has one summary per stored
conversation, and the summary at each position carries exactly the
conversation's id, title, timestamps, and the length of its message
list; the `ConversationSummary` type has no message field at all. -/
theorem list_summaries_spec (s : List Conversation) (i : Nat) :
    (handleConversationList s).length = s.length
    ∧ (handleConversationList s)[i]?
        = s[i]?.map (fun c =>
            (⟨c.id, c.title, c.createdAt, c.updatedAt,
              c.messages.length⟩ : ConversationSummary)) := by
  constructor
  · simp [handleConversationList]
  · simp [handleConversationList, List.getElem?_map]

/-- C9: a save carrying a non-empty id that matches no stored entry
leaves the stored list unchanged, yet replies `conversation-saved` with
`success: true`, echoing the given id. -/
theorem save_unknown_id_spec (data : SaveData) (genId now : String)
    (s : List Conversation) (cid : String) :
    data.conversationId = some cid → cid ≠ "" → cid ∉ idsOf s →
    (handleConversationSave data genId now s).1 = s
    ∧ (handleConversationSave data genId now s).2.success = true
    ∧ (handleConversationSave data genId now s).2.conversationId = some cid
    ∧ (handleConversationSave data genId now s).2.type
        = "conversation-saved" := by
  intro hcid hne hmem
  rw [handleConversationSave_update data genId now s cid hcid hne]
  exact ⟨updateById_of_not_mem _ _ _ hmem, rfl, rfl, rfl⟩

/-- C9 witness: `save_unknown_id_spec` at a concrete store missing the
requested id. -/
theorem save_unknown_id_spec_witness :
    (handleConversationSave ⟨some "b", "t", []⟩ "g" "n"
        [{ id := "a", title := "x", createdAt := "c", updatedAt := "u",
           messages := [] }]).1
      = [{ id := "a", title := "x", createdAt := "c", updatedAt := "u",
           messages := [] }]
    ∧ (handleConversationSave ⟨some "b", "t", []⟩ "g" "n"
        [{ id := "a", title := "x", createdAt := "c", updatedAt := "u",
           messages := [] }]).2.success = true := by
  have h := save_unknown_id_spec ⟨some "b", "t", []⟩ "g" "n"
    [{ id := "a", title := "x", createdAt := "c", updatedAt := "u",
       messages := [] }] "b" rfl (by decide) (by simp [idsOf])
  exact ⟨h.1, h.2.1⟩

theorem idsOf_save_truthy {data : SaveData} (genId now : String)
    (s : List Conversation) (h : strTruthy data.conversationId = true) :
    idsOf (handleConversationSave data genId now s).1 = idsOf s := by
  match hcid : data.conversationId with
  | none => rw [hcid] at h; simp [strTruthy] at h
  | some cid =>
      have hne : cid ≠ "" := by
        rw [hcid] at h; simpa [strTruthy, bne_iff_ne] using h
      rw [handleConversationSave_update data genId now s cid hcid hne]
      exact idsOf_updateById cid data.title data.messages now s

theorem nodup_idsOf_delete {cid : String} {s : List Conversation}
    (hnd : (idsOf s).Nodup) :
    (idsOf (handleConversationDelete cid s).1).Nodup := by
  by_cases h : cid ∈ idsOf s
  · rw [handleConversationDelete_mem cid s h]
    exact nodup_idsOf_filter _ hnd
  · rw [handleConversationDelete_not_mem cid s h]
    exact hnd

theorem nodup_idsOf_applyOp {s : List Conversation} {op : StoreOp}
    (hnd : (idsOf s).Nodup) (hf : opFresh s op = true) :
    (idsOf (applyOp s op)).Nodup := by
  cases op with
  | save data genId now =>
      cases htr : strTruthy data.conversationId with
      | true =>
          show (idsOf (handleConversationSave data genId now s).1).Nodup
          rw [idsOf_save_truthy genId now s htr]
          exact hnd
      | false =>
          have hfresh : genId ∉ idsOf s := by
            simp only [opFresh, htr, Bool.false_or, Bool.not_eq_true'] at hf
            intro hmem
            have hc : (idsOf s).contains genId = true :=
              List.contains_iff_exists_mem_beq.mpr ⟨genId, hmem, by simp⟩
            rw [hc] at hf
            cases hf
          show (idsOf (handleConversationSave data genId now s).1).Nodup
          rw [handleConversationSave_create data genId now s htr]
          simp only [idsOf, List.map_cons, List.nodup_cons]
          exact ⟨by simpa [mkNewConversation, idsOf] using hfresh, hnd⟩
  | load cid => exact hnd
  | listAll => exact hnd
  | delete cid =>
      show (idsOf (handleConversationDelete cid s).1).Nodup
      exact nodup_idsOf_delete hnd

/-- C7: pairwise-distinct conversation ids are an invariant: starting
from any duplicate-free stored list, any sequence of save, load, list
and delete operations — with each freshly generated id distinct from
the ids stored at its moment of generation, the generated id being
environment input — leaves the stored list with pairwise-distinct
ids. -/
theorem ids_unique_invariant (s : List Conversation) (ops : List StoreOp) :
    (idsOf s).Nodup → freshRun s ops = true →
    (idsOf (runOps s ops)).Nodup := by
  induction ops generalizing s with
  | nil => intro h _; exact h
  | cons op ops ih =>
      intro hnd hf
      rw [freshRun, Bool.and_eq_true] at hf
      exact ih (applyOp s op) (nodup_idsOf_applyOp hnd hf.1) hf.2

/-- C7 witness: the invariant run on a concrete operation sequence
(create, create, update, delete, load, list). -/
theorem ids_unique_invariant_witness :
    (idsOf (runOps []
      [StoreOp.save ⟨none, "t1", []⟩ "g1" "n1",
       StoreOp.save ⟨none, "t2", []⟩ "g2" "n2",
       StoreOp.save ⟨some "g1", "t3", []⟩ "g3" "n3",
       StoreOp.delete "g2",
       StoreOp.load "g1",
       StoreOp.listAll])).Nodup :=
  ids_unique_invariant []
    [StoreOp.save ⟨none, "t1", []⟩ "g1" "n1",
     StoreOp.save ⟨none, "t2", []⟩ "g2" "n2",
     StoreOp.save ⟨some "g1", "t3", []⟩ "g3" "n3",
     StoreOp.delete "g2",
     StoreOp.load "g1",
     StoreOp.listAll] (by simp [idsOf]) (by decide)

/-- C10: a save without an id `unshift`s the new conversation to the
front of the stored list and reports the new list head's id (the
generated id); consequently any sequence of id-less saves leaves the
store holding the created conversations in reverse creation order
(most recently created first) ahead of the prior contents. -/
theorem save_unshift_order_spec :
    (∀ (data : SaveData) (genId now : String) (s : List Conversation),
      strTruthy data.conversationId = false →
        (handleConversationSave data genId now s).1
            = mkNewConversation data genId now :: s
        ∧ (handleConversationSave data genId now s).2.conversationId
            = some genId
        ∧ ((handleConversationSave data genId now s).1.head?.map (·.id))
            = some genId)
    ∧ (∀ (items : List (SaveData × String × String))
        (s : List Conversation),
        (∀ it ∈ items, strTruthy it.1.conversationId = false) →
        runOps s (items.map (fun it => StoreOp.save it.1 it.2.1 it.2.2))
          = (items.map (fun it =>
              mkNewConversation it.1 it.2.1 it.2.2)).reverse ++ s) := by
  constructor
  · intro data genId now s h
    rw [handleConversationSave_create data genId now s h]
    exact ⟨rfl, rfl, by simp [mkNewConversation]⟩
  · intro items
    induction items with
    | nil => intro s _; rfl
    | cons it rest ih =>
        intro s hall
        have h1 : strTruthy it.1.conversationId = false := hall it (by simp)
        have hrest : ∀ x ∈ rest, strTruthy x.1.conversationId = false :=
          fun x hx => hall x (by simp [hx])
        show runOps
            (applyOp s (StoreOp.save it.1 it.2.1 it.2.2))
            (rest.map (fun x => StoreOp.save x.1 x.2.1 x.2.2)) = _
        have happ : applyOp s (StoreOp.save it.1 it.2.1 it.2.2)
            = mkNewConversation it.1 it.2.1 it.2.2 :: s := by
          show (handleConversationSave it.1 it.2.1 it.2.2 s).1 = _
          rw [handleConversationSave_create it.1 it.2.1 it.2.2 s h1]
        rw [happ, ih (mkNewConversation it.1 it.2.1 it.2.2 :: s) hrest]
        simp

/-- C10 witness: `save_unshift_order_spec` at two concrete id-less
saves: the resulting store is most-recent-first. -/
theorem save_unshift_order_spec_witness :
    (handleConversationSave ⟨none, "t1", []⟩ "g1" "n1" []).2.conversationId
        = some "g1"
    ∧ runOps []
        [StoreOp.save ⟨none, "t1", []⟩ "g1" "n1",
         StoreOp.save ⟨none, "t2", []⟩ "g2" "n2"]
        = [mkNewConversation ⟨none, "t2", []⟩ "g2" "n2",
           mkNewConversation ⟨none, "t1", []⟩ "g1" "n1"] := by
  refine ⟨(save_unshift_order_spec.1 ⟨none, "t1", []⟩ "g1" "n1" [] rfl).2.1, ?_⟩
  have h := save_unshift_order_spec.2
    [(⟨none, "t1", []⟩, "g1", "n1"), (⟨none, "t2", []⟩, "g2", "n2")] []
    (by decide)
  simpa using h

theorem handleAIRequest_missing_key {settings : Settings}
    (data : AIRequestData) (ctx : CodeContext)
    (f : String → Except String String)
    (h : getApiKey settings settings.aiProvider = "") :
    handleAIRequest settings data ctx f
      = { reply :=
            { type := "ai-response"
              response := "Error: No API key configured for "
                ++ settings.aiProvider
                ++ ". Please set your API key in the Settings."
              status := "error"
              provider := none
              includedContext := none }
          sentPrompt := none } := by
  simp [handleAIRequest, h]

theorem handleAIRequest_provider {settings : Settings}
    (data : AIRequestData) (ctx : CodeContext)
    (f : String → Except String String)
    (hk : getApiKey settings settings.aiProvider ≠ "")
    (hp : settings.aiProvider = "openai" ∨ settings.aiProvider = "claude") :
    handleAIRequest settings data ctx f
      = match f (builtPrompt data ctx) with
        | .ok response =>
            { reply :=
                { type := "ai-response"
                  response := response
                  status := "success"
                  provider := some settings.aiProvider
                  includedContext := some data.includeContext }
              sentPrompt := some (builtPrompt data ctx) }
        | .error msg =>
            { reply :=
                { type := "ai-response"
                  response := "Error: " ++ msg
                  status := "error"
                  provider := some settings.aiProvider
                  includedContext := none }
              sentPrompt := some (builtPrompt data ctx) } := by
  have hkb : (getApiKey settings settings.aiProvider == "") = false := by
    simp [hk]
  have hpb : (settings.aiProvider == "openai"
      || settings.aiProvider == "claude") = true := by
    rcases hp with h | h <;> simp [h]
  cases hf : f (builtPrompt data ctx) <;>
    simp [handleAIRequest, hkb, hpb, hf]

/-- C3: when the configured provider's API key is empty, the AI request
is answered with an `ai-response` of status `error`, no prompt is ever
handed to a provider endpoint (no network call), and the outcome does
not depend on the provider at all. -/
theorem missing_key_no_call_spec (settings : Settings)
    (data : AIRequestData) (ctx : CodeContext)
    (f : String → Except String String) :
    getApiKey settings settings.aiProvider = "" →
    (handleAIRequest settings data ctx f).reply.status = "error"
    ∧ (handleAIRequest settings data ctx f).reply.type = "ai-response"
    ∧ (handleAIRequest settings data ctx f).sentPrompt = none
    ∧ ∀ g : String → Except String String,
        handleAIRequest settings data ctx f
          = handleAIRequest settings data ctx g := by
  intro h
  rw [handleAIRequest_missing_key data ctx f h]
  refine ⟨rfl, rfl, rfl, fun g => ?_⟩
  rw [handleAIRequest_missing_key data ctx g h]

/-- C3 witness: `missing_key_no_call_spec` at settings whose openai key
is empty while openai is the configured provider. -/
theorem missing_key_no_call_spec_witness :
    (handleAIRequest ⟨"openai", "", "ck", "gpt-4", "m"⟩ ⟨"hi", false⟩
        ⟨none, none, none, none, none, none, none⟩
        (fun _ => Except.ok "resp")).reply.status = "error"
    ∧ (handleAIRequest ⟨"openai", "", "ck", "gpt-4", "m"⟩ ⟨"hi", false⟩
        ⟨none, none, none, none, none, none, none⟩
        (fun _ => Except.ok "resp")).sentPrompt = none := by
  have h := missing_key_no_call_spec ⟨"openai", "", "ck", "gpt-4", "m"⟩
    ⟨"hi", false⟩ ⟨none, none, none, none, none, none, none⟩
    (fun _ => Except.ok "resp") (by decide)
  exact ⟨h.1, h.2.2.1⟩

/-- C4: with the include-context flag off the prompt handed to the
provider is exactly the raw prompt of the request payload; with the
flag on it is the formatted context block followed by the tag
`**User Question:** ` and then the user's question verbatim, which is
in particular an unaltered suffix of the transmitted prompt. -/
theorem prompt_enrichment_spec (settings : Settings)
    (data : AIRequestData) (ctx : CodeContext)
    (f : String → Except String String) :
    getApiKey settings settings.aiProvider ≠ "" →
    (settings.aiProvider = "openai" ∨ settings.aiProvider = "claude") →
    (data.includeContext = false →
        (handleAIRequest settings data ctx f).sentPrompt = some data.prompt)
    ∧ (data.includeContext = true →
        (handleAIRequest settings data ctx f).sentPrompt
            = some (formatContextForAI ctx ++ "**User Question:** "
                ++ data.prompt)
        ∧ ∃ pre, (handleAIRequest settings data ctx f).sentPrompt
            = some (pre ++ data.prompt)) := by
  intro hk hp
  have hsp : (handleAIRequest settings data ctx f).sentPrompt
      = some (builtPrompt data ctx) := by
    rw [handleAIRequest_provider data ctx f hk hp]
    cases f (builtPrompt data ctx) <;> rfl
  constructor
  · intro hic
    rw [hsp]
    simp [builtPrompt, hic]
  · intro hic
    refine ⟨by rw [hsp]; simp [builtPrompt, hic],
      ⟨formatContextForAI ctx ++ "**User Question:** ",
        by rw [hsp]; simp [builtPrompt, hic]⟩⟩

/-- C4 witness: `prompt_enrichment_spec` with context off (raw prompt
transmitted) and on (context block prepended before the question). -/
theorem prompt_enrichment_spec_witness :
    (handleAIRequest ⟨"openai", "sk", "", "gpt-4", "m"⟩ ⟨"why?", false⟩
        ⟨none, none, none, none, none, none, none⟩
        (fun _ => Except.ok "r")).sentPrompt = some "why?"
    ∧ (handleAIRequest ⟨"openai", "sk", "", "gpt-4", "m"⟩ ⟨"why?", true⟩
        ⟨none, none, none, none, none, none, none⟩
        (fun _ => Except.ok "r")).sentPrompt
      = some (formatContextForAI ⟨none, none, none, none, none, none, none⟩
          ++ "**User Question:** " ++ "why?") := by
  refine ⟨(prompt_enrichment_spec ⟨"openai", "sk", "", "gpt-4", "m"⟩
      ⟨"why?", false⟩ ⟨none, none, none, none, none, none, none⟩
      (fun _ => Except.ok "r") (by decide) (Or.inl rfl)).1 rfl, ?_⟩
  exact ((prompt_enrichment_spec ⟨"openai", "sk", "", "gpt-4", "m"⟩
      ⟨"why?", true⟩ ⟨none, none, none, none, none, none, none⟩
      (fun _ => Except.ok "r") (by decide) (Or.inl rfl)).2 rfl).1

/-- C8: when the provider call throws, the controller replies with the
same `ai-response` message type as a success (no distinct failure
type), status `error`, and the thrown exception's message embedded
verbatim after the `Error: ` prefix in the response text. -/
theorem provider_failure_spec (settings : Settings)
    (data : AIRequestData) (ctx : CodeContext) (msg okText : String) :
    getApiKey settings settings.aiProvider ≠ "" →
    (settings.aiProvider = "openai" ∨ settings.aiProvider = "claude") →
    (handleAIRequest settings data ctx
        (fun _ => Except.error msg)).reply.type = "ai-response"
    ∧ (handleAIRequest settings data ctx
        (fun _ => Except.error msg)).reply.status = "error"
    ∧ (handleAIRequest settings data ctx
        (fun _ => Except.error msg)).reply.response = "Error: " ++ msg
    ∧ (∃ pre, (handleAIRequest settings data ctx
        (fun _ => Except.error msg)).reply.response = pre ++ msg)
    ∧ (handleAIRequest settings data ctx
        (fun _ => Except.error msg)).reply.type
      = (handleAIRequest settings data ctx
          (fun _ => Except.ok okText)).reply.type := by
  intro hk hp
  rw [handleAIRequest_provider data ctx (fun _ => Except.error msg) hk hp,
    handleAIRequest_provider data ctx (fun _ => Except.ok okText) hk hp]
  exact ⟨rfl, rfl, rfl, ⟨"Error: ", rfl⟩, rfl⟩

/-- C8 witness: `provider_failure_spec` at a concrete thrown message. -/
theorem provider_failure_spec_witness :
    (handleAIRequest ⟨"claude", "", "ck", "m1", "m2"⟩ ⟨"q", false⟩
        ⟨none, none, none, none, none, none, none⟩
        (fun _ => Except.error "boom")).reply.response = "Error: " ++ "boom"
    ∧ (handleAIRequest ⟨"claude", "", "ck", "m1", "m2"⟩ ⟨"q", false⟩
        ⟨none, none, none, none, none, none, none⟩
        (fun _ => Except.error "boom")).reply.status = "error" := by
  have h := provider_failure_spec ⟨"claude", "", "ck", "m1", "m2"⟩
    ⟨"q", false⟩ ⟨none, none, none, none, none, none, none⟩ "boom" "fine"
    (by decide) (Or.inr rfl)
  exact ⟨h.2.2.1, h.2.1⟩

/-- C5: for a document whose full text is at most 10000 characters the
gathered excerpt is the full content; above the threshold it is the
header naming the shown range followed by the window of lines from
`cursor - 50` (clamped at 0) through `min(lineCount - 1, cursor + 50)`;
that window holds at most 101 lines and its `i`-th line is the
document's line `cursor - 50 + i`. -/
theorem context_excerpt_spec (d : Document) (cursorLine : Nat) :
    ((docText d).length ≤ 10000 →
      contextFileContent d cursorLine = docText d)
    ∧ (¬ (docText d).length ≤ 10000 →
      contextFileContent d cursorLine
        = "... (showing lines " ++ toString (cursorLine - 50 + 1) ++ "-"
          ++ toString (min (d.lines.length - 1) (cursorLine + 50) + 1)
          ++ " around cursor) ...\n"
          ++ String.intercalate "\n" (excerptWindow d cursorLine))
    ∧ (excerptWindow d cursorLine).length ≤ 101
    ∧ (∀ i : Nat, i < (excerptWindow d cursorLine).length →
        (excerptWindow d cursorLine)[i]?
          = d.lines[cursorLine - 50 + i]?) := by
  have hlen : (excerptWindow d cursorLine).length
      = min (min (d.lines.length - 1) (cursorLine + 50) + 1
            - (cursorLine - 50))
          (d.lines.length - (cursorLine - 50)) := by
    simp [excerptWindow, List.length_take, List.length_drop]
  refine ⟨?_, ?_, ?_, ?_⟩
  · intro h
    simp [contextFileContent, h]
  · intro h
    simp [contextFileContent, h]
  · rw [hlen]; omega
  · intro i hi
    rw [hlen] at hi
    have hn : i < min (d.lines.length - 1) (cursorLine + 50) + 1
        - (cursorLine - 50) := by omega
    show ((d.lines.drop (cursorLine - 50)).take
        (min (d.lines.length - 1) (cursorLine + 50) + 1
          - (cursorLine - 50)))[i]? = _
    rw [List.getElem?_take_of_lt hn, List.getElem?_drop]

/-- A document under the size threshold. -/
def smallDoc : Document := ⟨["ab", "cd"]⟩

/-- A one-line document whose text exceeds the 10000-character
threshold. -/
def bigDoc : Document := ⟨[String.mk (List.replicate 10050 'a')]⟩

/-- C5 witness: `context_excerpt_spec` below and above the size
threshold. -/
theorem context_excerpt_spec_witness :
    contextFileContent smallDoc 0 = docText smallDoc
    ∧ contextFileContent bigDoc 0
        = "... (showing lines " ++ toString (0 - 50 + 1 : Nat) ++ "-"
          ++ toString (min (bigDoc.lines.length - 1) (0 + 50) + 1)
          ++ " around cursor) ...\n"
          ++ String.intercalate "\n" (excerptWindow bigDoc 0)
    ∧ (excerptWindow bigDoc 0).length ≤ 101 := by
  have hbig : (docText bigDoc).length = 10050 := by
    have h1 : docText bigDoc = String.mk (List.replicate 10050 'a') := rfl
    rw [h1]
    show (List.replicate 10050 'a').length = 10050
    exact List.length_replicate _ _
  refine ⟨(context_excerpt_spec smallDoc 0).1 (by decide),
    (context_excerpt_spec bigDoc 0).2.1 (by rw [hbig]; omega),
    (context_excerpt_spec bigDoc 0).2.2.1⟩

end CursorVoice
